import Mathlib

/-
  Verification of the waveform contract-testing engine.

  This file shallowly embeds the Go source of the repository
  (packages matcher, contract, collector) and proves or refutes the
  frozen claims about it.  Conventions of the embedding:

  * Go interface{} scalar values become the sum type GoVal.  Go has both
    int and int64; every code path embedded here treats them identically
    (Matcher.compareValues converts int to int64 before comparing, and
    AdvancedMatcher groups the cases), so a single integer constructor is
    semantics-preserving.  Go float64 is modelled as an exact rational:
    no embedded claim depends on binary rounding.
  * Go nil interface values are the GoVal.null constructor.
  * pcommon.Map (attribute maps with unique keys) becomes an association
    list; Go map iteration order is unspecified, which is modelled by
    making the order an explicit argument where a claim depends on it.
  * time.Time is an integer count of nanoseconds; the Go zero time is 0.
    The ambient clock (time.Now()) is an explicit parameter.
  * The Go regexp and time.ParseDuration library collaborators are
    abstracted as function parameters: the repository code only branches
    on whether compilation/parsing succeeded and on the boolean match
    result, and the claims are about those branches.
  * A Go runtime abort from out-of-range slice indexing is modelled by
    Option: none is the abort, some r a normal return.
-/

namespace Waveform

/-- Scalar Go interface values flowing through the matcher
(string, int/int64, float64, bool, time.Time, or the nil interface). -/
inductive GoVal where
  | null : GoVal
  | str (s : String) : GoVal
  | int (n : Int) : GoVal
  | float (q : Rat) : GoVal
  | bool (b : Bool) : GoVal
  | time (ns : Int) : GoVal
deriving DecidableEq, Repr

/-- Decimal rendering of a rational, used only for the %v form of a
float64; the claims never inspect a rendered float, so integral values
(rendered like Go) are the only exercised case. -/
def ratGoString (q : Rat) : String :=
  if q.den = 1 then toString q.num else toString q.num ++ "/" ++ toString q.den

/-- pcommon.Value.AsString / the fmt %v form of a scalar value. -/
def GoVal.asString : GoVal → String
  | .null => "<nil>"
  | .str s => s
  | .int n => toString n
  | .float q => ratGoString q
  | .bool b => if b then "true" else "false"
  | .time ns => toString ns

/-- pcommon.Value.Str(): the raw string for a string-typed value and the
empty string for every other type. -/
def GoVal.strOr : GoVal → String
  | .str s => s
  | _ => ""

/-- True exactly on the nil interface value. -/
def GoVal.isNull : GoVal → Bool
  | .null => true
  | _ => false

/-- Attribute maps (pcommon.Map): association lists with unique keys. -/
abbrev Attrs := List (String × GoVal)

/-- pcommon.Map.Get: the binding of the key, if any (keys are unique). -/
def attrGet (m : Attrs) (k : String) : Option GoVal :=
  (m.find? (fun p => p.1 = k)).map (fun p => p.2)

/-- Span status codes (ptrace.StatusCode). -/
inductive StatusCode where
  | unset | ok | error
deriving DecidableEq, Repr

/-- ptrace.StatusCode.String(). -/
def StatusCode.string : StatusCode → String
  | .unset => "Unset"
  | .ok => "Ok"
  | .error => "Error"

/-- A span: name, start/end timestamps in nanoseconds, status and
attributes (the fields the embedded functions read). -/
structure Span where
  name : String
  startNs : Int
  endNs : Int
  status : StatusCode
  attrs : Attrs
deriving DecidableEq, Repr

/-- ptrace.ScopeSpans. -/
structure ScopeSpans where
  spans : List Span
deriving DecidableEq, Repr

/-- ptrace.ResourceSpans: resource attributes and scope list. -/
structure ResourceSpans where
  resourceAttrs : Attrs
  scopeSpans : List ScopeSpans
deriving DecidableEq, Repr

/-- ptrace.Traces. -/
abbrev Traces := List ResourceSpans

/-- A metric data point: double value and attributes. -/
structure DataPoint where
  value : Rat
  attrs : Attrs
deriving DecidableEq, Repr

/-- The typed payload of a pmetric.Metric. -/
inductive MetricData where
  | gauge (dps : List DataPoint)
  | sum (dps : List DataPoint)
  | histogram (dps : List DataPoint)
  | empty
deriving DecidableEq, Repr

/-- pmetric.MetricType.String(). -/
def MetricData.typeString : MetricData → String
  | .gauge _ => "Gauge"
  | .sum _ => "Sum"
  | .histogram _ => "Histogram"
  | .empty => "Empty"

/-- pmetric.Metric. -/
structure Metric where
  name : String
  data : MetricData
deriving DecidableEq, Repr

/-- pmetric.ScopeMetrics. -/
structure ScopeMetrics where
  metrics : List Metric
deriving DecidableEq, Repr

/-- pmetric.ResourceMetrics. -/
structure ResourceMetrics where
  resourceAttrs : Attrs
  scopeMetrics : List ScopeMetrics
deriving DecidableEq, Repr

/-- pmetric.Metrics. -/
abbrev Metrics := List ResourceMetrics

/-- plog.LogRecord: body, severity text, timestamp, attributes. -/
structure LogRecord where
  body : GoVal
  severityText : String
  timestampNs : Int
  attrs : Attrs
deriving DecidableEq, Repr

/-- plog.ScopeLogs. -/
structure ScopeLogs where
  logRecords : List LogRecord
deriving DecidableEq, Repr

/-- plog.ResourceLogs. -/
structure ResourceLogs where
  resourceAttrs : Attrs
  scopeLogs : List ScopeLogs
deriving DecidableEq, Repr

/-- plog.Logs. -/
abbrev Logs := List ResourceLogs

/-- contract.OpenTelemetryData: the telemetry bundle with a wall time
(nanoseconds; 0 is the Go zero time). -/
structure OTelData where
  traces : Traces
  metrics : Metrics
  logs : Logs
  time : Int
deriving DecidableEq, Repr

/-- The Go regexp collaborator, abstracted: whether a pattern compiles,
and the match result for patterns that do.  The repository code only
branches on these two observations. -/
structure RegexEngine where
  compileOk : String → Bool
  matchString : String → String → Bool

/- ---------------------------------------------------------------
   strconv.ParseFloat (the decimal forms; hex floats, inf and nan are
   accepted by Go but unused by every theorem below).
   --------------------------------------------------------------- -/

/-- Split a leading run of decimal digits from a character list. -/
def takeDigits : List Char → List Char × List Char
  | [] => ([], [])
  | c :: cs =>
    if c.isDigit then
      let (d, r) := takeDigits cs
      (c :: d, r)
    else ([], c :: cs)

/-- Numeric value of a digit run. -/
def digitsToNat (cs : List Char) : Nat :=
  cs.foldl (fun a c => a * 10 + (c.toNat - 48)) 0

/-- Exponent suffix of a decimal literal. -/
def parseExpPart (mant : Rat) (cs : List Char) : Option Rat :=
  let (neg, cs2) :=
    match cs with
    | '+' :: r => (false, r)
    | '-' :: r => (true, r)
    | r => (false, r)
  let (ds, r) := takeDigits cs2
  if ds.isEmpty ∨ ¬ r.isEmpty then none
  else
    let e := digitsToNat ds
    if neg then some (mant / (10 : Rat) ^ e) else some (mant * (10 : Rat) ^ e)

/-- Unsigned decimal literal: digits, optional fraction, optional
exponent; at least one digit must be present. -/
def parseDecCore (cs : List Char) : Option Rat :=
  let (ip, r1) := takeDigits cs
  let (fp, r2) :=
    match r1 with
    | '.' :: rest => takeDigits rest
    | _ => ([], r1)
  if ip.isEmpty ∧ fp.isEmpty then none
  else
    let mant : Rat := (digitsToNat ip : Rat) + (digitsToNat fp : Rat) / ((10 : Rat) ^ fp.length)
    match r2 with
    | [] => some mant
    | 'e' :: rest => parseExpPart mant rest
    | 'E' :: rest => parseExpPart mant rest
    | _ => none

/-- strconv.ParseFloat on decimal syntax, as an exact rational. -/
def parseGoFloat (s : String) : Option Rat :=
  match s.data with
  | '+' :: cs => parseDecCore cs
  | '-' :: cs => (parseDecCore cs).map Neg.neg
  | cs => parseDecCore cs

/- ---------------------------------------------------------------
   AdvancedMatcher helpers (src/unnamed/part_000, package matcher).
   --------------------------------------------------------------- -/

namespace AdvancedMatcher

/-- AdvancedMatcher.toNumeric: int, int64 and float64 pass through,
strings go through strconv.ParseFloat, everything else is an error. -/
def toNumeric : GoVal → Option Rat
  | .int n => some (n : Rat)
  | .float q => some q
  | .str s => parseGoFloat s
  | _ => none

/-- math.Abs. -/
def ratAbs (q : Rat) : Rat := if q < 0 then -q else q

/-- AdvancedMatcher.compareNumeric: float64 comparison; equality uses
the absolute tolerance 1e-9. -/
def compareNumeric (a b : Rat) (op : String) : Bool :=
  if op = "equals" then ratAbs (a - b) < 1 / 1000000000
  else if op = "greater_than" then b < a
  else if op = "less_than" then a < b
  else if op = "greater_or_equal" then b ≤ a
  else if op = "less_or_equal" then a ≤ b
  else false

/-- AdvancedMatcher.compareValues.  nil compares equal only to nil;
strings compare lexicographically; an int/int64/float64 left operand is
compared numerically against toNumeric of the right operand, with a
discarded conversion error defaulting the operand to 0 (the Go code
ignores the error return); other types yield false. -/
def compareValues (a b : GoVal) (op : String) : Bool :=
  if a.isNull ∨ b.isNull then a.isNull && b.isNull
  else
    match a with
    | .str av =>
      match b with
      | .str bv =>
        if op = "equals" then av = bv
        else if op = "greater_than" then bv < av
        else if op = "less_than" then av < bv
        else if op = "greater_or_equal" then bv ≤ av
        else if op = "less_or_equal" then av ≤ bv
        else false
      | _ => false
    | .int _ => compareNumeric ((toNumeric a).getD 0) ((toNumeric b).getD 0) op
    | .float _ => compareNumeric ((toNumeric a).getD 0) ((toNumeric b).getD 0) op
    | _ => false

/-- AdvancedMatcher.matchesPattern: nil values and empty patterns never
match; otherwise stringify via %v, compile, and match (a compile error
yields false). -/
def matchesPattern (E : RegexEngine) (value : GoVal) (pattern : String) : Bool :=
  if value.isNull ∨ pattern = "" then false
  else
    let valueStr := value.asString
    if E.compileOk pattern then E.matchString pattern valueStr else false

/-- AdvancedMatcher.stringContains on %v stringifications. -/
def stringContains (value substring : GoVal) : Bool :=
  decide (substring.asString.data <:+: value.asString.data)

/-- AdvancedMatcher.stringStartsWith on %v stringifications. -/
def stringStartsWith (value pre : GoVal) : Bool :=
  value.asString.startsWith pre.asString

/-- AdvancedMatcher.stringEndsWith on %v stringifications. -/
def stringEndsWith (value suffix : GoVal) : Bool :=
  value.asString.endsWith suffix.asString

end AdvancedMatcher

/-- contract.ValueRange: optional endpoints, a global inclusive flag and
optional per-endpoint overrides. -/
structure ValueRange where
  min : Option GoVal := none
  max : Option GoVal := none
  inclusive : Bool := false
  minInclusive : Option Bool := none
  maxInclusive : Option Bool := none
deriving DecidableEq, Repr

namespace AdvancedMatcher

/-- AdvancedMatcher.inRange: the value must coerce to a number; each
present endpoint must coerce and bound the value, inclusively when the
per-endpoint override (falling back to the global flag) says so; an
absent endpoint is unbounded on that side. -/
def inRange (value : GoVal) (r : ValueRange) : Bool :=
  match toNumeric value with
  | none => false
  | some numValue =>
    let minCheck : Bool :=
      match r.min with
      | none => true
      | some mv =>
        match toNumeric mv with
        | none => false
        | some minValue =>
          if r.minInclusive.getD r.inclusive then decide (minValue ≤ numValue)
          else decide (minValue < numValue)
    let maxCheck : Bool :=
      match r.max with
      | none => true
      | some mv =>
        match toNumeric mv with
        | none => false
        | some maxValue =>
          if r.maxInclusive.getD r.inclusive then decide (numValue ≤ maxValue)
          else decide (numValue < maxValue)
    minCheck && maxCheck

/-- AdvancedMatcher.oneOf: membership via the equals comparison. -/
def oneOf (value : GoVal) (values : List GoVal) : Bool :=
  values.any (fun v => compareValues value v "equals")

end AdvancedMatcher

/-- contract.ValidationRule, restricted to the fields the embedded
functions read.  The condition, transform and description fields are
not read by validateBasicRule; the temporal qualifier is passed to
validateTemporalRule separately; severity is retained because it is the
subject of a claim. -/
structure ValidationRule where
  field : String := ""
  operator : String := ""
  value : GoVal := .null
  values : List GoVal := []
  range : Option ValueRange := none
  pattern : String := ""
  severity : String := ""
deriving DecidableEq, Repr

/-- contract.TemporalRule. -/
structure TemporalRule where
  windowSize : String := ""
  aggregation : String := ""
  threshold : GoVal := .null
  comparison : String := ""
  baseline : String := ""
  tolerance : Rat := 0
deriving DecidableEq, Repr

namespace AdvancedMatcher

/-- AdvancedMatcher.validateBasicRule: dispatch on the rule operator,
mirroring the Go switch arm for arm. -/
def validateBasicRule (E : RegexEngine) (rule : ValidationRule) (fieldValue : GoVal) :
    Except String Unit :=
  if rule.operator = "equals" then
    if compareValues fieldValue rule.value "equals" then .ok ()
    else .error ("field " ++ rule.field ++ ": expected " ++ rule.value.asString ++
      ", got " ++ fieldValue.asString)
  else if rule.operator = "not_equals" then
    if compareValues fieldValue rule.value "equals" then
      .error ("field " ++ rule.field ++ ": should not equal " ++ rule.value.asString)
    else .ok ()
  else if rule.operator = "matches" then
    let pattern := if rule.pattern = "" ∧ ¬ rule.value.isNull then rule.value.asString
      else rule.pattern
    if matchesPattern E fieldValue pattern then .ok ()
    else .error ("field " ++ rule.field ++ ": value " ++ fieldValue.asString ++
      " does not match pattern " ++ pattern)
  else if rule.operator = "not_matches" then
    let pattern := if rule.pattern = "" ∧ ¬ rule.value.isNull then rule.value.asString
      else rule.pattern
    if matchesPattern E fieldValue pattern then
      .error ("field " ++ rule.field ++ ": value " ++ fieldValue.asString ++
        " should not match pattern " ++ pattern)
    else .ok ()
  else if rule.operator = "exists" then
    if fieldValue.isNull then .error ("field " ++ rule.field ++ ": should exist") else .ok ()
  else if rule.operator = "not_exists" then
    if fieldValue.isNull then .ok () else .error ("field " ++ rule.field ++ ": should not exist")
  else if rule.operator = "greater_than" then
    if compareValues fieldValue rule.value "greater_than" then .ok ()
    else .error ("field " ++ rule.field ++ ": should be greater than " ++ rule.value.asString)
  else if rule.operator = "less_than" then
    if compareValues fieldValue rule.value "less_than" then .ok ()
    else .error ("field " ++ rule.field ++ ": should be less than " ++ rule.value.asString)
  else if rule.operator = "greater_or_equal" then
    if compareValues fieldValue rule.value "greater_or_equal" then .ok ()
    else .error ("field " ++ rule.field ++ ": should be greater than or equal to " ++
      rule.value.asString)
  else if rule.operator = "less_or_equal" then
    if compareValues fieldValue rule.value "less_or_equal" then .ok ()
    else .error ("field " ++ rule.field ++ ": should be less than or equal to " ++
      rule.value.asString)
  else if rule.operator = "contains" then
    if stringContains fieldValue rule.value then .ok ()
    else .error ("field " ++ rule.field ++ ": should contain " ++ rule.value.asString)
  else if rule.operator = "not_contains" then
    if stringContains fieldValue rule.value then
      .error ("field " ++ rule.field ++ ": should not contain " ++ rule.value.asString)
    else .ok ()
  else if rule.operator = "starts_with" then
    if stringStartsWith fieldValue rule.value then .ok ()
    else .error ("field " ++ rule.field ++ ": should start with " ++ rule.value.asString)
  else if rule.operator = "ends_with" then
    if stringEndsWith fieldValue rule.value then .ok ()
    else .error ("field " ++ rule.field ++ ": should end with " ++ rule.value.asString)
  else if rule.operator = "in_range" then
    match rule.range with
    | none => .error ("field " ++ rule.field ++ ": range not specified for in_range operator")
    | some r =>
      if inRange fieldValue r then .ok ()
      else .error ("field " ++ rule.field ++ ": " ++ fieldValue.asString ++ " not in range")
  else if rule.operator = "not_in_range" then
    match rule.range with
    | none => .error ("field " ++ rule.field ++ ": range not specified for not_in_range operator")
    | some r =>
      if inRange fieldValue r then
        .error ("field " ++ rule.field ++ ": " ++ fieldValue.asString ++ " should not be in range")
      else .ok ()
  else if rule.operator = "one_of" then
    if oneOf fieldValue rule.values then .ok ()
    else .error ("field " ++ rule.field ++ ": should be one of the listed values")
  else if rule.operator = "not_one_of" then
    if oneOf fieldValue rule.values then
      .error ("field " ++ rule.field ++ ": should not be one of the listed values")
    else .ok ()
  else .error ("unsupported operator: " ++ rule.operator)

/-- AdvancedMatcher.validateTemporalRule.  The window size goes through
time.ParseDuration (the abstracted pd); now is time.Now() (the ambient
system clock, passed explicitly); the data timestamp falls back to now
when it is the zero time; only the lower window bound is checked; then
an optional threshold comparison runs. -/
def validateTemporalRule (pd : String → Option Int) (now : Int)
    (temporal : TemporalRule) (fieldValue : GoVal) (dataTime : Int) : Except String Unit :=
  match pd temporal.windowSize with
  | none => .error ("invalid window size: " ++ temporal.windowSize)
  | some windowDuration =>
    let windowStart := now - windowDuration
    let timestamp := if dataTime = 0 then now else dataTime
    if timestamp < windowStart then
      .error "timestamp is outside window"
    else if ¬ temporal.threshold.isNull ∧ temporal.comparison ≠ "" then
      match toNumeric fieldValue with
      | none => .error "cannot convert field value to numeric for temporal validation"
      | some numericValue =>
        match toNumeric temporal.threshold with
        | none => .error "cannot convert threshold to numeric"
        | some thresholdValue =>
          if compareNumeric numericValue thresholdValue temporal.comparison then .ok ()
          else .error "temporal validation failed"
    else .ok ()

end AdvancedMatcher

/-- time.Duration.String, simplified to a nanosecond rendering; the
claims only observe whether the span.duration path resolves, never the
rendered text. -/
def goDurationString (ns : Int) : String := toString ns ++ "ns"

/-- strings.Split on the separator ".": split at every dot, preserving
empty segments (the empty string splits to one empty segment). -/
def splitDotChars : List Char → List (List Char)
  | [] => [[]]
  | c :: rest =>
    if c = '.' then [] :: splitDotChars rest
    else
      match splitDotChars rest with
      | [] => [[c]]
      | h :: t => (c :: h) :: t

/-- strings.Split(fieldPath, ".") as used by every extractFieldValue. -/
def goSplitDot (s : String) : List String :=
  (splitDotChars s.data).map (fun l => String.mk l)

namespace AdvancedMatcher

/-- AdvancedMatcher.extractSpanField: read a sub-field of the first span
of the first scope of the first resource entry; every guard failure and
every unknown sub-field yields nil. -/
def extractSpanField (parts : List String) (traces : Traces) : GoVal :=
  match traces with
  | [] => .null
  | rs :: _ =>
    if parts.isEmpty then .null
    else
      match rs.scopeSpans with
      | [] => .null
      | ss :: _ =>
        match ss.spans with
        | [] => .null
        | span :: _ =>
          match parts with
          | [] => .null
          | p :: rest =>
            if p = "name" then .str span.name
            else if p = "service" ∨ p = "service.name" then
              match attrGet rs.resourceAttrs "service.name" with
              | some v => .str v.strOr
              | none => .null
            else if p = "duration" then .str (goDurationString (span.endNs - span.startNs))
            else if p = "status" then .str span.status.string
            else if p = "attributes" then
              match rest with
              | k :: _ =>
                match attrGet span.attrs k with
                | some v => v
                | none => .null
              | [] => .null
            else .null

/-- AdvancedMatcher.extractMetricField: first metric of the first scope
of the first resource entry; the value sub-field reads the first data
point of a gauge or sum, labels read the first data point attribute. -/
def extractMetricField (parts : List String) (metrics : Metrics) : GoVal :=
  match metrics with
  | [] => .null
  | rm :: _ =>
    if parts.isEmpty then .null
    else
      match rm.scopeMetrics with
      | [] => .null
      | sm :: _ =>
        match sm.metrics with
        | [] => .null
        | metric :: _ =>
          match parts with
          | [] => .null
          | p :: rest =>
            if p = "name" then .str metric.name
            else if p = "type" then .str metric.data.typeString
            else if p = "value" then
              match metric.data with
              | .gauge (dp :: _) => .float dp.value
              | .sum (dp :: _) => .float dp.value
              | _ => .null
            else if p = "labels" then
              match rest with
              | k :: _ =>
                match metric.data with
                | .gauge (dp :: _) => (attrGet dp.attrs k).getD .null
                | .sum (dp :: _) => (attrGet dp.attrs k).getD .null
                | _ => .null
              | [] => .null
            else .null

/-- AdvancedMatcher.extractLogField: first log record of the first scope
of the first resource entry. -/
def extractLogField (parts : List String) (logs : Logs) : GoVal :=
  match logs with
  | [] => .null
  | rl :: _ =>
    if parts.isEmpty then .null
    else
      match rl.scopeLogs with
      | [] => .null
      | sl :: _ =>
        match sl.logRecords with
        | [] => .null
        | record :: _ =>
          match parts with
          | [] => .null
          | p :: rest =>
            if p = "body" then .str record.body.asString
            else if p = "severity" then .str record.severityText
            else if p = "timestamp" then .time record.timestampNs
            else if p = "attributes" then
              match rest with
              | k :: _ =>
                match attrGet record.attrs k with
                | some v => v
                | none => .null
              | [] => .null
            else .null

/-- AdvancedMatcher.extractFieldValue: split the dot-separated path and
dispatch on the head segment span / metric / log. -/
def extractFieldValue (fieldPath : String) (data : OTelData) : GoVal :=
  match goSplitDot fieldPath with
  | [] => .null
  | p :: rest =>
    if p = "span" then extractSpanField rest data.traces
    else if p = "metric" then extractMetricField rest data.metrics
    else if p = "log" then extractLogField rest data.logs
    else .null

end AdvancedMatcher

/- ---------------------------------------------------------------
   Matcher (src/unnamed/part_000, package matcher, legacy validator).
   --------------------------------------------------------------- -/

/-- contract.Filter. -/
structure Filter where
  field : String := ""
  operator : String := ""
  value : GoVal := .null
deriving DecidableEq, Repr

namespace Matcher

/-- Matcher.compareValues: strict by dynamic type.  Strings compare with
equals / greater_than / less_than; int and int64 operands cross-compare
as integers; float64 compares only with float64 and exactly; every other
pairing (in particular int against float64) yields false. -/
def compareValues (a b : GoVal) (op : String) : Bool :=
  if a.isNull ∨ b.isNull then a.isNull && b.isNull
  else
    match a, b with
    | .str av, .str bv =>
      if op = "equals" then av = bv
      else if op = "greater_than" then bv < av
      else if op = "less_than" then av < bv
      else false
    | .int av, .int bv =>
      if op = "equals" then av = bv
      else if op = "greater_than" then bv < av
      else if op = "less_than" then av < bv
      else false
    | .float av, .float bv =>
      if op = "equals" then av = bv
      else if op = "greater_than" then bv < av
      else if op = "less_than" then av < bv
      else false
    | _, _ => false

/-- Matcher.matchesPattern: both value and pattern must be non-nil, the
pattern must be a string, the value is stringified when it is not one;
a compile error yields false. -/
def matchesPattern (E : RegexEngine) (value pattern : GoVal) : Bool :=
  if value.isNull ∨ pattern.isNull then false
  else
    let valueStr := match value with
      | .str s => s
      | v => v.asString
    match pattern with
    | .str patternStr =>
      if E.compileOk patternStr then E.matchString patternStr valueStr else false
    | _ => false

/-- Matcher.extractSpanField.  Unlike the AdvancedMatcher variant, the
service sub-field yields the EMPTY STRING (not nil) when the resource
has no service.name attribute, and attribute values are stringified. -/
def extractSpanField (parts : List String) (traces : Traces) : GoVal :=
  match traces with
  | [] => .null
  | rs :: _ =>
    match rs.scopeSpans with
    | [] => .null
    | ss :: _ =>
      match ss.spans with
      | [] => .null
      | span :: _ =>
        match parts with
        | [] => .null
        | p :: rest =>
          if p = "name" then .str span.name
          else if p = "service" ∨ p = "service.name" then
            match attrGet rs.resourceAttrs "service.name" with
            | some v => .str v.strOr
            | none => .str ""
          else if p = "attributes" then
            match rest with
            | k :: _ =>
              match attrGet span.attrs k with
              | some v => .str v.asString
              | none => .null
            | [] => .null
          else .null

/-- Matcher.extractMetricField. -/
def extractMetricField (parts : List String) (metrics : Metrics) : GoVal :=
  match metrics with
  | [] => .null
  | rm :: _ =>
    match rm.scopeMetrics with
    | [] => .null
    | sm :: _ =>
      match sm.metrics with
      | [] => .null
      | metric :: _ =>
        match parts with
        | [] => .null
        | p :: rest =>
          if p = "name" then .str metric.name
          else if p = "type" then
            match metric.data with
            | .gauge _ => .str "gauge"
            | .sum _ => .str "sum"
            | .histogram _ => .str "histogram"
            | .empty => .str "unknown"
          else if p = "labels" then
            match rest with
            | k :: _ =>
              match metric.data with
              | .gauge (dp :: _) => ((attrGet dp.attrs k).map (fun v => GoVal.str v.asString)).getD .null
              | .sum (dp :: _) => ((attrGet dp.attrs k).map (fun v => GoVal.str v.asString)).getD .null
              | _ => .null
            | [] => .null
          else .null

/-- Matcher.extractLogField. -/
def extractLogField (parts : List String) (logs : Logs) : GoVal :=
  match logs with
  | [] => .null
  | rl :: _ =>
    match rl.scopeLogs with
    | [] => .null
    | sl :: _ =>
      match sl.logRecords with
      | [] => .null
      | record :: _ =>
        match parts with
        | [] => .null
        | p :: rest =>
          if p = "body" then .str record.body.asString
          else if p = "severity" then .str record.severityText
          else if p = "attributes" then
            match rest with
            | k :: _ =>
              match attrGet record.attrs k with
              | some v => .str v.asString
              | none => .null
            | [] => .null
          else .null

/-- Matcher.extractFieldValue. -/
def extractFieldValue (fieldPath : String) (data : OTelData) : GoVal :=
  match goSplitDot fieldPath with
  | [] => .null
  | p :: rest =>
    if p = "span" then extractSpanField rest data.traces
    else if p = "metric" then extractMetricField rest data.metrics
    else if p = "log" then extractLogField rest data.logs
    else .null

/-- Matcher.evaluateFilter: extract the field, then dispatch on the
filter operator (unknown operators fail the filter). -/
def evaluateFilter (E : RegexEngine) (filter : Filter) (data : OTelData) : Bool :=
  let fieldValue := extractFieldValue filter.field data
  if filter.operator = "equals" then compareValues fieldValue filter.value "equals"
  else if filter.operator = "not_equals" then ! compareValues fieldValue filter.value "equals"
  else if filter.operator = "matches" then matchesPattern E fieldValue filter.value
  else if filter.operator = "exists" then ! fieldValue.isNull
  else if filter.operator = "not_exists" then fieldValue.isNull
  else if filter.operator = "greater_than" then compareValues fieldValue filter.value "greater_than"
  else if filter.operator = "less_than" then compareValues fieldValue filter.value "less_than"
  else false

/-- Matcher.applyFilters: an empty list passes, otherwise every filter
must pass. -/
def applyFilters (E : RegexEngine) (filters : List Filter) (data : OTelData) : Bool :=
  if filters.isEmpty then true
  else filters.all (fun f => evaluateFilter E f data)

end Matcher

/-- The Go comparison of a string with an interface value (string !=
interface{}): they are equal exactly when the interface holds an equal
string. -/
def strEqIface (s : String) (v : GoVal) : Bool :=
  match v with
  | .str t => s = t
  | _ => false

/-- contract.TraceMatcher, restricted to the fields Matcher.validateTrace
reads (the validation_rules, count, duration, status_code and custom
fields of the source struct are never consulted by it).  The attributes
map is carried in iteration order; no claim depends on that order. -/
structure TraceMatcher where
  spanName : String := ""
  serviceName : String := ""
  attributes : List (String × GoVal) := []
deriving DecidableEq, Repr

/-- contract.MetricMatcher, restricted likewise. -/
structure MetricMatcher where
  name : String := ""
  type : String := ""
  labels : List (String × GoVal) := []
deriving DecidableEq, Repr

/-- contract.LogMatcher, restricted likewise. -/
structure LogMatcher where
  body : String := ""
  severity : String := ""
  attributes : List (String × GoVal) := []
deriving DecidableEq, Repr

/-- contract.Matchers. -/
structure Matchers where
  traces : List TraceMatcher := []
  metrics : List MetricMatcher := []
  logs : List LogMatcher := []
deriving DecidableEq, Repr

/-- contract.Contract, restricted to the fields Matcher.Validate reads
plus the validation_rules list (carried to express that Validate never
consults it or the severities inside it). -/
structure Contract where
  publisher : String := ""
  pipeline : String := ""
  version : String := ""
  filters : List Filter := []
  validationRules : List ValidationRule := []
  matchers : Matchers := {}
deriving DecidableEq, Repr

/-- contract.ValidationError, restricted to the populated fields. -/
structure ValidationError where
  type_ : String := ""
  message : String := ""
  signalType : String := ""
deriving DecidableEq, Repr

/-- contract.ValidationResult. -/
structure ValidationResult where
  valid : Bool
  errors : List ValidationError
  warnings : List String
deriving DecidableEq, Repr

namespace Matcher

/-- The attribute loop of Matcher.validateTrace: a key with a "!" prefix
must be absent (checked only when the span has attributes at all), any
other key must be present with a matching string value. -/
def checkTraceAttrs (spanAttrs : Attrs) : List (String × GoVal) → Except String Unit
  | [] => .ok ()
  | (key, expected) :: rest =>
    if key.startsWith "!" then
      let fieldName := key.drop 1
      if spanAttrs.length > 0 ∧ (attrGet spanAttrs fieldName).isSome then
        .error ("attribute " ++ fieldName ++ " should not exist")
      else checkTraceAttrs spanAttrs rest
    else
      match attrGet spanAttrs key with
      | some actualValue =>
        if strEqIface actualValue.strOr expected then checkTraceAttrs spanAttrs rest
        else .error ("attribute " ++ key ++ " mismatch: expected " ++ expected.asString ++
          ", got " ++ actualValue.strOr)
      | none => .error ("attribute " ++ key ++ " not found")

/-- Matcher.validateTrace: indexes the first resource, scope and span
WITHOUT bounds checks (none models the Go index-out-of-range abort),
then checks span name, service name and attributes. -/
def validateTrace (matcher : TraceMatcher) (traces : Traces) : Option (Except String Unit) :=
  match traces with
  | [] => none
  | rs :: _ =>
    match rs.scopeSpans with
    | [] => none
    | ss :: _ =>
      match ss.spans with
      | [] => none
      | span :: _ =>
        some (
          if matcher.spanName ≠ "" ∧ span.name ≠ matcher.spanName then
            .error ("span name mismatch: expected " ++ matcher.spanName ++ ", got " ++ span.name)
          else if matcher.serviceName ≠ "" then
            match attrGet rs.resourceAttrs "service.name" with
            | some serviceName =>
              if serviceName.strOr ≠ matcher.serviceName then
                .error ("service name mismatch: expected " ++ matcher.serviceName ++
                  ", got " ++ serviceName.strOr)
              else checkTraceAttrs span.attrs matcher.attributes
            | none => .error "service name not found in resource attributes"
          else checkTraceAttrs span.attrs matcher.attributes)

/-- The matcher loop of Matcher.validateTraces, wrapping the first
failure with its index. -/
def validateTracesLoop (traces : Traces) : Nat → List TraceMatcher → Option (Except String Unit)
  | _, [] => some (.ok ())
  | i, m :: rest =>
    match validateTrace m traces with
    | none => none
    | some (.error e) => some (.error ("trace matcher " ++ toString i ++ " failed: " ++ e))
    | some (.ok ()) => validateTracesLoop traces (i + 1) rest

/-- Matcher.validateTraces: only the zero-resource case is guarded. -/
def validateTraces (matchers : List TraceMatcher) (traces : Traces) :
    Option (Except String Unit) :=
  if traces.isEmpty then some (.error "no traces found in output")
  else validateTracesLoop traces 0 matchers

/-- The label loop of Matcher.validateMetric: a label is read from the
first data point of a gauge or sum (other types never find it). -/
def checkMetricLabels (metric : Metric) : List (String × GoVal) → Except String Unit
  | [] => .ok ()
  | (key, expected) :: rest =>
    let found : Option GoVal :=
      match metric.data with
      | .gauge (dp :: _) => attrGet dp.attrs key
      | .sum (dp :: _) => attrGet dp.attrs key
      | _ => none
    match found with
    | none => .error ("label " ++ key ++ " not found")
    | some actualValue =>
      if strEqIface actualValue.strOr expected then checkMetricLabels metric rest
      else .error ("label " ++ key ++ " mismatch: expected " ++ expected.asString ++
        ", got " ++ actualValue.strOr)

/-- Matcher.validateMetric: indexes the first resource, scope and metric
without bounds checks, then checks name, type and labels. -/
def validateMetric (matcher : MetricMatcher) (metrics : Metrics) :
    Option (Except String Unit) :=
  match metrics with
  | [] => none
  | rm :: _ =>
    match rm.scopeMetrics with
    | [] => none
    | sm :: _ =>
      match sm.metrics with
      | [] => none
      | metric :: _ =>
        some (
          if matcher.name ≠ "" ∧ metric.name ≠ matcher.name then
            .error ("metric name mismatch: expected " ++ matcher.name ++ ", got " ++ metric.name)
          else if matcher.type ≠ "" then
            let actualType :=
              match metric.data with
              | .gauge _ => "gauge"
              | .sum _ => "sum"
              | .histogram _ => "histogram"
              | .empty => ""
            if actualType ≠ matcher.type then
              .error ("metric type mismatch: expected " ++ matcher.type ++ ", got " ++ actualType)
            else checkMetricLabels metric matcher.labels
          else checkMetricLabels metric matcher.labels)

/-- The matcher loop of Matcher.validateMetrics. -/
def validateMetricsLoop (metrics : Metrics) : Nat → List MetricMatcher → Option (Except String Unit)
  | _, [] => some (.ok ())
  | i, m :: rest =>
    match validateMetric m metrics with
    | none => none
    | some (.error e) => some (.error ("metric matcher " ++ toString i ++ " failed: " ++ e))
    | some (.ok ()) => validateMetricsLoop metrics (i + 1) rest

/-- Matcher.validateMetrics: only the zero-resource case is guarded. -/
def validateMetrics (matchers : List MetricMatcher) (metrics : Metrics) :
    Option (Except String Unit) :=
  if metrics.isEmpty then some (.error "no metrics found in output")
  else validateMetricsLoop metrics 0 matchers

/-- The attribute loop of Matcher.validateLog. -/
def checkLogAttrs (recordAttrs : Attrs) : List (String × GoVal) → Except String Unit
  | [] => .ok ()
  | (key, expected) :: rest =>
    match attrGet recordAttrs key with
    | some actualValue =>
      if strEqIface actualValue.strOr expected then checkLogAttrs recordAttrs rest
      else .error ("log attribute " ++ key ++ " mismatch: expected " ++ expected.asString ++
        ", got " ++ actualValue.strOr)
    | none => .error ("log attribute " ++ key ++ " not found")

/-- Matcher.validateLog: indexes the first resource, scope and record
without bounds checks, then checks body, severity and attributes. -/
def validateLog (matcher : LogMatcher) (logs : Logs) : Option (Except String Unit) :=
  match logs with
  | [] => none
  | rl :: _ =>
    match rl.scopeLogs with
    | [] => none
    | sl :: _ =>
      match sl.logRecords with
      | [] => none
      | record :: _ =>
        some (
          if matcher.body ≠ "" ∧ record.body.asString ≠ matcher.body then
            .error ("log body mismatch: expected " ++ matcher.body ++ ", got " ++
              record.body.asString)
          else if matcher.severity ≠ "" ∧ record.severityText ≠ matcher.severity then
            .error ("log severity mismatch: expected " ++ matcher.severity ++ ", got " ++
              record.severityText)
          else checkLogAttrs record.attrs matcher.attributes)

/-- The matcher loop of Matcher.validateLogs. -/
def validateLogsLoop (logs : Logs) : Nat → List LogMatcher → Option (Except String Unit)
  | _, [] => some (.ok ())
  | i, m :: rest =>
    match validateLog m logs with
    | none => none
    | some (.error e) => some (.error ("log matcher " ++ toString i ++ " failed: " ++ e))
    | some (.ok ()) => validateLogsLoop logs (i + 1) rest

/-- Matcher.validateLogs: only the zero-resource case is guarded. -/
def validateLogs (matchers : List LogMatcher) (logs : Logs) : Option (Except String Unit) :=
  if logs.isEmpty then some (.error "no logs found in output")
  else validateLogsLoop logs 0 matchers

/-- Fold one signal-validation outcome into the running result: an abort
propagates, a failure records an error and clears valid. -/
def stepResult (r : ValidationResult) (step : Option (Except String Unit))
    (ty sig : String) : Option ValidationResult :=
  match step with
  | none => none
  | some (.ok ()) => some r
  | some (.error e) =>
    some { r with valid := false,
                  errors := r.errors ++ [{ type_ := ty, message := e, signalType := sig }] }

/-- The matcher-evaluation phase of Matcher.Validate: run the trace,
metric and log matcher groups (each only when its list is non-empty)
against the output bundle, accumulating errors into the pristine
result. -/
def runMatchers (m : Matchers) (output : OTelData) : Option ValidationResult :=
  (stepResult { valid := true, errors := [], warnings := [] }
      (if m.traces.isEmpty then some (.ok ())
       else validateTraces m.traces output.traces) "trace_validation" "traces").bind
    (fun r1 =>
      (stepResult r1
          (if m.metrics.isEmpty then some (.ok ())
           else validateMetrics m.metrics output.metrics) "metric_validation" "metrics").bind
        (fun r2 =>
          stepResult r2
            (if m.logs.isEmpty then some (.ok ())
             else validateLogs m.logs output.logs) "log_validation" "logs"))

/-- Matcher.Validate: start from a pristine result; if any filter fails
on the input, return it untouched (no matcher or rule is evaluated);
otherwise run the matcher phase against the output. -/
def validate (E : RegexEngine) (c : Contract) (input output : OTelData) :
    Option ValidationResult :=
  let result : ValidationResult := { valid := true, errors := [], warnings := [] }
  if ¬ applyFilters E c.filters input then some result
  else runMatchers c.matchers output

end Matcher

/- ---------------------------------------------------------------
   PipelineSelectorService (src/internal/contract/selector.go).
   --------------------------------------------------------------- -/

/-- contract.PipelineInfo; tags and metadata are Go string maps, so a
missing key reads as the empty string. -/
structure PipelineInfo where
  id : String := ""
  name : String := ""
  description : String := ""
  type : String := ""
  tags : List (String × String) := []
  metadata : List (String × String) := []
deriving DecidableEq, Repr

/-- contract.PipelineSelector. -/
structure PipelineSelector where
  field : String := ""
  operator : String := ""
  value : GoVal := .null
deriving DecidableEq, Repr

/-- contract.PipelineSelectors: a selector set with a contract priority. -/
structure PipelineSelectors where
  selectors : List PipelineSelector := []
  priority : Int := 0
deriving DecidableEq, Repr

namespace Selector

/-- Go string-map indexing: missing keys give the empty string. -/
def mapIndex (m : List (String × String)) (k : String) : String :=
  ((m.find? (fun p => p.1 = k)).map (fun p => p.2)).getD ""

/-- PipelineSelectorService.extractFieldValue over the field grammar
id | name | description | type | tags.k | metadata.k; a tags/metadata
path without a sub-key and an unknown head give nil, and a missing
tag/metadata key gives the empty string (Go map indexing). -/
def extractFieldValue (pipeline : PipelineInfo) (fieldPath : String) : GoVal :=
  match goSplitDot fieldPath with
  | [] => .null
  | p :: rest =>
    if p = "id" then .str pipeline.id
    else if p = "name" then .str pipeline.name
    else if p = "description" then .str pipeline.description
    else if p = "type" then .str pipeline.type
    else if p = "tags" then
      match rest with
      | k :: _ => .str (mapIndex pipeline.tags k)
      | [] => .null
    else if p = "metadata" then
      match rest with
      | k :: _ => .str (mapIndex pipeline.metadata k)
      | [] => .null
    else .null

/-- PipelineSelectorService.compareValues: both operands are rendered
with %v and only the equals operation is supported. -/
def compareValues (a b : GoVal) (op : String) : Bool :=
  if a.isNull ∨ b.isNull then a.isNull && b.isNull
  else if op = "equals" then a.asString = b.asString
  else false

/-- PipelineSelectorService.matchesPattern. -/
def matchesPattern (E : RegexEngine) (value pattern : GoVal) : Bool :=
  if value.isNull ∨ pattern.isNull then false
  else
    let valueStr := match value with
      | .str s => s
      | v => v.asString
    match pattern with
    | .str patternStr =>
      if E.compileOk patternStr then E.matchString patternStr valueStr else false
    | _ => false

/-- PipelineSelectorService.containsValue on %v stringifications. -/
def containsValue (value contains : GoVal) : Bool :=
  if value.isNull ∨ contains.isNull then false
  else decide (contains.asString.data <:+: value.asString.data)

/-- PipelineSelectorService.startsWithValue. -/
def startsWithValue (value sw : GoVal) : Bool :=
  if value.isNull ∨ sw.isNull then false
  else value.asString.startsWith sw.asString

/-- PipelineSelectorService.endsWithValue. -/
def endsWithValue (value ew : GoVal) : Bool :=
  if value.isNull ∨ ew.isNull then false
  else value.asString.endsWith ew.asString

/-- PipelineSelectorService.matchesSelector: a nil field value never
matches; then dispatch on the restricted operator set. -/
def matchesSelector (E : RegexEngine) (pipeline : PipelineInfo) (sel : PipelineSelector) : Bool :=
  let fieldValue := extractFieldValue pipeline sel.field
  if fieldValue.isNull then false
  else if sel.operator = "equals" then compareValues fieldValue sel.value "equals"
  else if sel.operator = "matches" then matchesPattern E fieldValue sel.value
  else if sel.operator = "contains" then containsValue fieldValue sel.value
  else if sel.operator = "starts_with" then startsWithValue fieldValue sel.value
  else if sel.operator = "ends_with" then endsWithValue fieldValue sel.value
  else false

/-- PipelineSelectorService.matchesSelectors: conjunction over the set. -/
def matchesSelectors (E : RegexEngine) (pipeline : PipelineInfo)
    (sels : List PipelineSelector) : Bool :=
  sels.all (fun s => matchesSelector E pipeline s)

/-- PipelineSelectorService.FindMatchingPipelines.  The service stores
pipelines in a Go map whose iteration order is unspecified; the order
argument is the registry in whatever order that iteration produced.
An empty selector set is an error; otherwise the matching pipelines are
returned in iteration order. -/
def findMatchingPipelines (E : RegexEngine) (order : List PipelineInfo)
    (sels : PipelineSelectors) : Except String (List PipelineInfo) :=
  if sels.selectors.isEmpty then .error "no selectors provided"
  else .ok (order.filter (fun p => matchesSelectors E p sels.selectors))

/-- PipelineSelectorService.FindBestMatchingPipeline: the FIRST element
of the matching list in map-iteration order; the contract priority is
never consulted and no ranking is performed. -/
def findBestMatchingPipeline (E : RegexEngine) (order : List PipelineInfo)
    (sels : PipelineSelectors) : Except String PipelineInfo :=
  match findMatchingPipelines E order sels with
  | .error e => .error e
  | .ok [] => .error "no matching pipelines found"
  | .ok (p :: _) => .ok p

end Selector

/- ---------------------------------------------------------------
   EnhancedTransformProcessor (src/unnamed/part_001, package collector).
   --------------------------------------------------------------- -/

/-- collector.SpanNameTransform. -/
structure SpanNameTransform where
  fromAttributes : List String := []
  toAttributes : List String := []
  separator : String := ""
deriving DecidableEq, Repr

namespace Transform

/-- EnhancedTransformProcessor.applySpanNameTransform: collect the
string forms of the span attributes named in from_attributes (absent
names contribute nothing); when any were found, join them with the
separator (a single space when unset) and replace the span name,
otherwise leave the span untouched. -/
def applySpanNameTransform (t : SpanNameTransform) (span : Span) : Span :=
  if t.fromAttributes.isEmpty then span
  else
    let parts := t.fromAttributes.filterMap (fun a => (attrGet span.attrs a).map GoVal.asString)
    if parts.isEmpty then span
    else
      let separator := if t.separator = "" then " " else t.separator
      { span with name := String.intercalate separator parts }

end Transform

/- ---------------------------------------------------------------
   Shape predicates and concrete fixtures used by the theorems.
   --------------------------------------------------------------- -/

/-- The traces shape under which Matcher.validateTrace cannot abort:
either no resource entry at all (the guarded case) or a first resource
entry whose first scope holds at least one span. -/
def tracesFirstItemOk (t : Traces) : Bool :=
  match t with
  | [] => true
  | r :: _ =>
    match r.scopeSpans with
    | [] => false
    | s :: _ => ! s.spans.isEmpty

/-- The metrics shape under which Matcher.validateMetric cannot abort. -/
def metricsFirstItemOk (m : Metrics) : Bool :=
  match m with
  | [] => true
  | r :: _ =>
    match r.scopeMetrics with
    | [] => false
    | s :: _ => ! s.metrics.isEmpty

/-- The logs shape under which Matcher.validateLog cannot abort. -/
def logsFirstItemOk (l : Logs) : Bool :=
  match l with
  | [] => true
  | r :: _ =>
    match r.scopeLogs with
    | [] => false
    | s :: _ => ! s.logRecords.isEmpty

/-- A regex collaborator in which every pattern compiles and matches;
used on code paths that never consult the regex. -/
def engineAllTrue : RegexEngine :=
  { compileOk := fun _ => true, matchString := fun _ _ => true }

/-- A regex collaborator in which the pattern "(" does not compile
(as in Go, where an unclosed group is a regexp parse error) and nothing
matches. -/
def engineParen : RegexEngine :=
  { compileOk := fun p => p ≠ "(", matchString := fun _ _ => false }

/-- A duration collaborator defined on the literal "1s" (Go
time.ParseDuration maps it to 1e9 nanoseconds). -/
def parseDur1s : String → Option Int :=
  fun s => if s = "1s" then some 1000000000 else none

/-- A concrete span carrying the http.method / http.route attributes of
the spec scenario. -/
def sampleSpan : Span :=
  { name := "op", startNs := 0, endNs := 5, status := .unset,
    attrs := [("http.method", .str "GET"), ("http.route", .str "/api/users")] }

/-- A singleton trace bundle around sampleSpan, with no resource
attributes (hence no service.name). -/
def sampleTraces : Traces :=
  [{ resourceAttrs := [], scopeSpans := [{ spans := [sampleSpan] }] }]

/-- The bundle holding sampleTraces. -/
def sampleData : OTelData :=
  { traces := sampleTraces, metrics := [], logs := [], time := 0 }

/-- The empty bundle. -/
def emptyData : OTelData :=
  { traces := [], metrics := [], logs := [], time := 0 }

/-- A bundle whose single trace resource entry has an empty scope list
(the shape on which validateTrace aborts). -/
def noScopeData : OTelData :=
  { traces := [{ resourceAttrs := [], scopeSpans := [] }], metrics := [], logs := [], time := 0 }

/-- A contract whose single filter requires span.name = "nope" (it fails
on sampleData, whose span is named "op"). -/
def cGate : Contract :=
  { filters := [{ field := "span.name", operator := "equals", value := .str "nope" }],
    matchers := { traces := [{ spanName := "op" }] } }

/-- A contract with one trace matcher expecting span name "a", and whose
only validation rule carries severity "warning" (no error-severity rule
exists anywhere in it). -/
def cWarn : Contract :=
  { validationRules := [{ field := "span.name", operator := "equals",
                          value := .str "a", severity := "warning" }],
    matchers := { traces := [{ spanName := "a" }] } }

/-- Two registered pipelines of type "trace", distinct ids. -/
def pipeA : PipelineInfo := { id := "trace-a", name := "A", type := "trace" }

/-- Second pipeline, registered after pipeA. -/
def pipeB : PipelineInfo := { id := "trace-b", name := "B", type := "trace" }

/-- A selector set matching every pipeline of type "trace", with
priority 7. -/
def selTrace : PipelineSelectors :=
  { selectors := [{ field := "type", operator := "equals", value := .str "trace" }],
    priority := 7 }

/- ===============================================================
   Theorems for the claims.
   =============================================================== -/

/-- Claim C6 (confirmed).  For every numeric-coercible actual value,
in_range uses the global inclusive flag for both endpoints unless
overridden per endpoint by min_inclusive / max_inclusive, an absent
endpoint is unbounded on that side, and the two boundary scenarios of
the spec hold: with inclusive=true, min=0, max=1 both 0 and 1 pass;
with min_inclusive=false, max_inclusive=true, min=0, max=1 the value 0
fails and 1 passes. -/
theorem inRange_inclusivity :
    (∀ (v mv xv : GoVal) (q mq xq : Rat) (incl : Bool) (minI maxI : Option Bool),
      AdvancedMatcher.toNumeric v = some q →
      AdvancedMatcher.toNumeric mv = some mq →
      AdvancedMatcher.toNumeric xv = some xq →
      AdvancedMatcher.inRange v ⟨some mv, some xv, incl, minI, maxI⟩ =
        ((if minI.getD incl then decide (mq ≤ q) else decide (mq < q)) &&
         (if maxI.getD incl then decide (q ≤ xq) else decide (q < xq)))) ∧
    (∀ (v mv : GoVal) (q mq : Rat) (incl : Bool) (minI maxI : Option Bool),
      AdvancedMatcher.toNumeric v = some q →
      AdvancedMatcher.toNumeric mv = some mq →
      AdvancedMatcher.inRange v ⟨some mv, none, incl, minI, maxI⟩ =
        (if minI.getD incl then decide (mq ≤ q) else decide (mq < q))) ∧
    (∀ (v xv : GoVal) (q xq : Rat) (incl : Bool) (minI maxI : Option Bool),
      AdvancedMatcher.toNumeric v = some q →
      AdvancedMatcher.toNumeric xv = some xq →
      AdvancedMatcher.inRange v ⟨none, some xv, incl, minI, maxI⟩ =
        (if maxI.getD incl then decide (q ≤ xq) else decide (q < xq))) ∧
    (∀ (v : GoVal) (q : Rat) (incl : Bool) (minI maxI : Option Bool),
      AdvancedMatcher.toNumeric v = some q →
      AdvancedMatcher.inRange v ⟨none, none, incl, minI, maxI⟩ = true) ∧
    AdvancedMatcher.inRange (.int 0)
      { min := some (.int 0), max := some (.int 1), inclusive := true } = true ∧
    AdvancedMatcher.inRange (.int 1)
      { min := some (.int 0), max := some (.int 1), inclusive := true } = true ∧
    AdvancedMatcher.inRange (.int 0)
      { min := some (.int 0), max := some (.int 1),
        minInclusive := some false, maxInclusive := some true } = false ∧
    AdvancedMatcher.inRange (.int 1)
      { min := some (.int 0), max := some (.int 1),
        minInclusive := some false, maxInclusive := some true } = true := by
  refine ⟨?_, ?_, ?_, ?_, by decide, by decide, by decide, by decide⟩
  · intro v mv xv q mq xq incl minI maxI hv hm hx
    simp [AdvancedMatcher.inRange, hv, hm, hx]
  · intro v mv q mq incl minI maxI hv hm
    simp [AdvancedMatcher.inRange, hv, hm]
  · intro v xv q xq incl minI maxI hv hx
    simp [AdvancedMatcher.inRange, hv, hx]
  · intro v q incl minI maxI hv
    simp [AdvancedMatcher.inRange, hv]

/-- Claim C6 witness: the general characterization applied at the value
2 against the range [0, 1] with the global inclusive flag set. -/
theorem inRange_inclusivity_witness :
    AdvancedMatcher.toNumeric (.int 2) = some 2 ∧
    AdvancedMatcher.inRange (.int 2)
      ⟨some (.int 0), some (.int 1), true, none, none⟩ =
      ((if (none : Option Bool).getD true then decide ((0 : Rat) ≤ 2) else decide ((0 : Rat) < 2)) &&
       (if (none : Option Bool).getD true then decide ((2 : Rat) ≤ 1) else decide ((2 : Rat) < 1))) :=
  ⟨by decide, inRange_inclusivity.1 (.int 2) (.int 0) (.int 1) 2 0 1 true none none
    (by decide) (by decide) (by decide)⟩

/-- Claim C7 (corrected).  The numeric cross-type tolerance rule holds in
AdvancedMatcher.compareValues (rule evaluation): an int compared with a
float64 under equals coerces both to float64 and succeeds iff the
absolute difference is below 1e-9 (and it even coerces numeric strings,
asymmetrically, beyond what the claim states).  It does NOT hold in
Matcher.compareValues, which contract filter evaluation uses: there an
int against a float64 is false outright, and float64 equality is exact
with no tolerance. -/
theorem equals_coercion :
    (∀ (n : Int) (q : Rat),
      AdvancedMatcher.compareValues (.int n) (.float q) "equals" =
        decide (AdvancedMatcher.ratAbs ((n : Rat) - q) < 1 / 1000000000) ∧
      AdvancedMatcher.compareValues (.float q) (.int n) "equals" =
        decide (AdvancedMatcher.ratAbs (q - (n : Rat)) < 1 / 1000000000)) ∧
    (∀ (n : Int) (q : Rat),
      Matcher.compareValues (.int n) (.float q) "equals" = false ∧
      Matcher.compareValues (.float q) (.int n) "equals" = false) ∧
    (∀ q1 q2 : Rat, Matcher.compareValues (.float q1) (.float q2) "equals" = decide (q1 = q2)) ∧
    (∀ (E : RegexEngine) (f : Filter) (data : OTelData), f.operator = "equals" →
      Matcher.evaluateFilter E f data =
        Matcher.compareValues (Matcher.extractFieldValue f.field data) f.value "equals") ∧
    AdvancedMatcher.compareValues (.float 1) (.str "1") "equals" = true := by
  refine ⟨?_, ?_, ?_, ?_, ?_⟩
  · intro n q
    constructor
    · simp [AdvancedMatcher.compareValues, AdvancedMatcher.toNumeric,
        AdvancedMatcher.compareNumeric, GoVal.isNull]
    · simp [AdvancedMatcher.compareValues, AdvancedMatcher.toNumeric,
        AdvancedMatcher.compareNumeric, GoVal.isNull]
  · intro n q
    constructor
    · simp [Matcher.compareValues, GoVal.isNull]
    · simp [Matcher.compareValues, GoVal.isNull]
  · intro q1 q2
    simp [Matcher.compareValues, GoVal.isNull]
  · intro E f data h
    simp [Matcher.evaluateFilter, h]
  · simp [AdvancedMatcher.compareValues, GoVal.isNull, AdvancedMatcher.toNumeric,
      parseGoFloat, parseDecCore, takeDigits, digitsToNat, Char.isDigit,
      AdvancedMatcher.compareNumeric, AdvancedMatcher.ratAbs]

/-- Claim C7 counterexample: the int 1 and the float64 1.0 differ by
less than 1e-9, so the claim predicts that equals succeeds wherever it
is evaluated; Matcher.compareValues, used by contract filter
evaluation, returns false on exactly this pair (AdvancedMatcher returns
true). -/
theorem equals_coercion_cex :
    Matcher.compareValues (.int 1) (.float 1) "equals" = false ∧
    AdvancedMatcher.compareValues (.int 1) (.float 1) "equals" = true ∧
    AdvancedMatcher.ratAbs ((1 : Rat) - 1) < 1 / 1000000000 := by
  refine ⟨by decide, ?_, ?_⟩
  · simp [AdvancedMatcher.compareValues, GoVal.isNull, AdvancedMatcher.toNumeric,
      AdvancedMatcher.compareNumeric, AdvancedMatcher.ratAbs]
  · norm_num [AdvancedMatcher.ratAbs]

/-- Claim C7 witness: the filter-dispatch conjunct applied to a concrete
equals filter on sampleData. -/
theorem equals_coercion_witness :
    ({ field := "span.name", operator := "equals", value := .str "op" } : Filter).operator
      = "equals" ∧
    Matcher.evaluateFilter engineAllTrue
        { field := "span.name", operator := "equals", value := .str "op" } sampleData =
      Matcher.compareValues (Matcher.extractFieldValue "span.name" sampleData)
        (.str "op") "equals" :=
  ⟨rfl, equals_coercion.2.2.2.1 engineAllTrue
    { field := "span.name", operator := "equals", value := .str "op" } sampleData rfl⟩

/-- Claim C9 (confirmed).  The span-name transform joins, with the
configured separator (a single space when unset), the string forms of
the span's own attributes named in from_attributes, omitting absent
ones; when none are present the span is unchanged; and on the concrete
spec scenario (http.method = GET, http.route = /api/users, separator
one space) the resulting span name is "GET /api/users". -/
theorem spanNameTransform_join :
    (∀ (t : SpanNameTransform) (span : Span),
      t.fromAttributes.filterMap (fun a => (attrGet span.attrs a).map GoVal.asString) = [] →
      Transform.applySpanNameTransform t span = span) ∧
    (∀ (t : SpanNameTransform) (span : Span) (p : String) (parts : List String),
      t.fromAttributes.filterMap (fun a => (attrGet span.attrs a).map GoVal.asString) =
        p :: parts →
      Transform.applySpanNameTransform t span =
        { span with name := String.intercalate (if t.separator = "" then " " else t.separator)
                              (p :: parts) }) ∧
    (Transform.applySpanNameTransform
      { fromAttributes := ["http.method", "http.route"], separator := " " } sampleSpan).name =
      "GET /api/users" := by
  refine ⟨?_, ?_, ?_⟩
  · intro t span h
    cases hfa : t.fromAttributes with
    | nil => simp [Transform.applySpanNameTransform, hfa]
    | cons a tl =>
      rw [hfa] at h
      simp [Transform.applySpanNameTransform, hfa, h]
  · intro t span p parts h
    cases hfa : t.fromAttributes with
    | nil => rw [hfa] at h; simp at h
    | cons a tl =>
      rw [hfa] at h
      simp [Transform.applySpanNameTransform, hfa, h]
  · rfl

/-- Claim C9 witness: the join conjunct applied to the concrete spec
scenario, with the attribute extraction evaluated. -/
theorem spanNameTransform_join_witness :
    (["http.method", "http.route"].filterMap
        (fun a => (attrGet sampleSpan.attrs a).map GoVal.asString) =
      "GET" :: ["/api/users"]) ∧
    Transform.applySpanNameTransform
        { fromAttributes := ["http.method", "http.route"], separator := " " } sampleSpan =
      { sampleSpan with
        name := String.intercalate (if (" " : String) = "" then " " else " ")
                  ("GET" :: ["/api/users"]) } :=
  ⟨by decide, spanNameTransform_join.2.1
    { fromAttributes := ["http.method", "http.route"], separator := " " }
    sampleSpan "GET" ["/api/users"] (by decide)⟩

/-- Claim C1 (corrected).  For every contract and input bundle on which
some filter fails, Matcher.Validate evaluates no matcher (the result
does not depend on the output bundle at all) and returns valid = true
with empty errors; but the warnings list is EMPTY, not the single
warning the claim states.  When every filter passes (or the filter list
is empty), the matcher phase runs against the output. -/
theorem filterGating_skip :
    (∀ (E : RegexEngine) (c : Contract) (input : OTelData),
      Matcher.applyFilters E c.filters input = false →
      ∀ output : OTelData,
        Matcher.validate E c input output =
          some { valid := true, errors := [], warnings := [] }) ∧
    (∀ (E : RegexEngine) (c : Contract) (input : OTelData),
      Matcher.applyFilters E c.filters input = true →
      ∀ output : OTelData,
        Matcher.validate E c input output = Matcher.runMatchers c.matchers output) := by
  constructor
  · intro E c input h output
    simp [Matcher.validate, h]
  · intro E c input h output
    simp [Matcher.validate, h]

/-- Claim C1 counterexample: the contract cGate filters on
span.name = "nope" while sampleData's span is named "op", so the filter
fails; the returned result carries an empty warnings list, not the
single warning "skipped: filter not satisfied" the claim requires. -/
theorem filterGating_skip_cex :
    Matcher.validate engineAllTrue cGate sampleData emptyData =
      some { valid := true, errors := [], warnings := [] } ∧
    ([] : List String) ≠ ["skipped: filter not satisfied"] := by
  constructor
  · rfl
  · decide

/-- Claim C1 witness: the gating conjunct applied to cGate on
sampleData (where the span.name filter fails) and, for the second
conjunct, to the filterless contract cWarn. -/
theorem filterGating_skip_witness :
    Matcher.applyFilters engineAllTrue cGate.filters sampleData = false ∧
    Matcher.validate engineAllTrue cGate sampleData emptyData =
      some { valid := true, errors := [], warnings := [] } ∧
    Matcher.applyFilters engineAllTrue cWarn.filters sampleData = true ∧
    Matcher.validate engineAllTrue cWarn sampleData emptyData =
      Matcher.runMatchers cWarn.matchers emptyData :=
  ⟨by decide, filterGating_skip.1 engineAllTrue cGate sampleData (by decide) emptyData,
   by decide, filterGating_skip.2 engineAllTrue cWarn sampleData (by decide) emptyData⟩

/-- Helper: stepResult preserves the invariant that valid is true
exactly when the error list is empty. -/
theorem stepResult_inv (rr : ValidationResult) (step : Option (Except String Unit))
    (ty sig : String) (rout : ValidationResult)
    (h : Matcher.stepResult rr step ty sig = some rout)
    (hp : rr.valid = true ↔ rr.errors = []) : rout.valid = true ↔ rout.errors = [] := by
  match step with
  | none => exact absurd h (by simp [Matcher.stepResult])
  | some (.ok ()) =>
    have h2 : some rr = some rout := h
    cases Option.some.inj h2
    exact hp
  | some (.error e) =>
    have h2 : some (ValidationResult.mk false
        (rr.errors ++ [ValidationError.mk ty e sig]) rr.warnings) = some rout := h
    cases Option.some.inj h2
    simp

/-- Claim C2 (corrected).  Matcher.Validate never consults rule
severities: its result is unchanged under arbitrary replacement of the
contract's validation rules (severities included), because output
validation never evaluates validation rules at all; and whenever
Validate returns a result, valid is false exactly when some matcher
failure was recorded as an error — rule severity plays no role. -/
theorem severity_not_consulted :
    (∀ (E : RegexEngine) (c : Contract) (rules rules2 : List ValidationRule)
       (input output : OTelData),
      Matcher.validate E { c with validationRules := rules } input output =
        Matcher.validate E { c with validationRules := rules2 } input output) ∧
    (∀ (E : RegexEngine) (c : Contract) (input output : OTelData) (r : ValidationResult),
      Matcher.validate E c input output = some r →
      (r.valid = true ↔ r.errors = [])) := by
  constructor
  · intro E c rules rules2 input output
    rfl
  · intro E c input output r hr
    by_cases hf : Matcher.applyFilters E c.filters input = true
    · have hr2 : Matcher.runMatchers c.matchers output = some r := by
        unfold Matcher.validate at hr
        simpa [hf] using hr
      unfold Matcher.runMatchers at hr2
      obtain ⟨r1, h1, hr3⟩ := Option.bind_eq_some.mp hr2
      obtain ⟨r2, h2, h3⟩ := Option.bind_eq_some.mp hr3
      have hp1 := stepResult_inv _ _ _ _ _ h1 (by simp)
      have hp2 := stepResult_inv _ _ _ _ _ h2 hp1
      exact stepResult_inv _ _ _ _ _ h3 hp2
    · unfold Matcher.validate at hr
      simp [hf] at hr
      rw [← hr]
      simp

/-- Claim C2 counterexample: the contract cWarn contains no
error-severity rule (its only rule has severity "warning"), yet its
failing trace matcher (expected span name "a", actual "op") flips
valid to false — so it is not the case that only error-severity rule
failures flip validity. -/
theorem severity_not_consulted_cex :
    Matcher.validate engineAllTrue cWarn emptyData sampleData =
      some { valid := false,
             errors := [{ type_ := "trace_validation",
                          message := "trace matcher 0 failed: span name mismatch: expected a, got op",
                          signalType := "traces" }],
             warnings := [] } ∧
    cWarn.validationRules.all (fun r => r.severity ≠ "error") = true := by
  constructor
  · rfl
  · decide

/-- Claim C2 witness: the rule-independence conjunct applied to cWarn
with an error-severity replacement list, and the valid/errors
characterization applied to the concrete result returned for cWarn. -/
theorem severity_not_consulted_witness :
    Matcher.validate engineAllTrue { cWarn with validationRules := [] } emptyData sampleData =
      Matcher.validate engineAllTrue
        { cWarn with validationRules := [{ field := "f", operator := "equals",
                                           severity := "error" }] } emptyData sampleData ∧
    (({ valid := false,
        errors := [{ type_ := "trace_validation",
                     message := "trace matcher 0 failed: span name mismatch: expected a, got op",
                     signalType := "traces" }],
        warnings := [] } : ValidationResult).valid = true ↔
      ({ valid := false,
         errors := [{ type_ := "trace_validation",
                      message := "trace matcher 0 failed: span name mismatch: expected a, got op",
                      signalType := "traces" }],
         warnings := [] } : ValidationResult).errors = []) :=
  ⟨severity_not_consulted.1 engineAllTrue cWarn []
      [{ field := "f", operator := "equals", severity := "error" }] emptyData sampleData,
   severity_not_consulted.2 engineAllTrue cWarn emptyData sampleData _ (by rfl)⟩

/-- Claim C8 (corrected).  A pipeline matches iff every selector passes,
and the matching query returns exactly the matching pipelines; but
best-match resolution performs no tie-breaking at all: it returns the
first match in the registry's map-iteration order (which Go leaves
unspecified), and the contract priority is never consulted. -/
theorem selector_best_match :
    (∀ (E : RegexEngine) (p : PipelineInfo) (sels : List PipelineSelector),
      Selector.matchesSelectors E p sels = true ↔
        ∀ sel ∈ sels, Selector.matchesSelector E p sel = true) ∧
    (∀ (E : RegexEngine) (order : List PipelineInfo) (sels : PipelineSelectors)
       (l : List PipelineInfo),
      Selector.findMatchingPipelines E order sels = .ok l →
      ∀ p, p ∈ l ↔ p ∈ order ∧ Selector.matchesSelectors E p sels.selectors = true) ∧
    (∀ (E : RegexEngine) (order : List PipelineInfo) (selList : List PipelineSelector)
       (pri pri2 : Int),
      Selector.findBestMatchingPipeline E order ⟨selList, pri⟩ =
        Selector.findBestMatchingPipeline E order ⟨selList, pri2⟩) ∧
    (∀ (E : RegexEngine) (order : List PipelineInfo) (sels : PipelineSelectors)
       (p : PipelineInfo) (rest : List PipelineInfo),
      Selector.findMatchingPipelines E order sels = .ok (p :: rest) →
      Selector.findBestMatchingPipeline E order sels = .ok p) := by
  refine ⟨?_, ?_, ?_, ?_⟩
  · intro E p sels
    simp [Selector.matchesSelectors, List.all_eq_true]
  · intro E order sels l h p
    unfold Selector.findMatchingPipelines at h
    by_cases he : sels.selectors.isEmpty
    · simp [he] at h
    · simp [he] at h
      rw [← h]
      simp [List.mem_filter]
  · intro E order selList pri pri2
    rfl
  · intro E order sels p rest h
    simp [Selector.findBestMatchingPipeline, h]

/-- Claim C8 counterexample: pipeA and pipeB (both of type "trace",
registered in that insertion order) both match the selector set
selTrace; [pipeB, pipeA] is a legal Go map-iteration order of that
registry, and on it best-match returns pipeB — although the claimed
tie-break ((a) contract priority, identical for both candidates here,
then (b) insertion order) requires pipeA. -/
theorem selector_best_match_cex :
    Selector.matchesSelectors engineAllTrue pipeA selTrace.selectors = true ∧
    Selector.matchesSelectors engineAllTrue pipeB selTrace.selectors = true ∧
    Selector.findBestMatchingPipeline engineAllTrue [pipeB, pipeA] selTrace = .ok pipeB ∧
    pipeB ≠ pipeA := by
  refine ⟨by decide, by decide, by rfl, by decide⟩

/-- Claim C8 witness: the exact-match conjunct and the head conjunct
applied to the registry in insertion order. -/
theorem selector_best_match_witness :
    Selector.findMatchingPipelines engineAllTrue [pipeA, pipeB] selTrace =
      .ok [pipeA, pipeB] ∧
    (pipeA ∈ [pipeA, pipeB] ↔ pipeA ∈ [pipeA, pipeB] ∧
      Selector.matchesSelectors engineAllTrue pipeA selTrace.selectors = true) ∧
    Selector.findBestMatchingPipeline engineAllTrue [pipeA, pipeB] selTrace = .ok pipeA :=
  ⟨by rfl,
   selector_best_match.2.1 engineAllTrue [pipeA, pipeB] selTrace [pipeA, pipeB]
     (by rfl) pipeA,
   selector_best_match.2.2.2 engineAllTrue [pipeA, pipeB] selTrace pipeA [pipeB] (by rfl)⟩

/-- Claim C4 (corrected).  The window size is parsed as a duration (an
unparseable one is an error), but now is the ambient system clock
time.Now(), not the bundle's wall time; the bundle timestamp (falling
back to now when zero) is compared against the lower bound only: the
window check fails if and only if timestamp < now − window_size, so
timestamps after window_end = now pass, and the failure is a plain
error with no temporal_out_of_window kind. -/
theorem temporal_window :
    (∀ (pd : String → Option Int) (now : Int) (t : TemporalRule) (fv : GoVal) (dt : Int),
      pd t.windowSize = none →
      AdvancedMatcher.validateTemporalRule pd now t fv dt =
        .error ("invalid window size: " ++ t.windowSize)) ∧
    (∀ (pd : String → Option Int) (now w : Int) (t : TemporalRule) (fv : GoVal) (dt : Int),
      pd t.windowSize = some w →
      t.threshold = .null →
      (AdvancedMatcher.validateTemporalRule pd now t fv dt = .ok () ↔
        ¬ ((if dt = 0 then now else dt) < now - w))) := by
  constructor
  · intro pd now t fv dt hpd
    simp [AdvancedMatcher.validateTemporalRule, hpd]
  · intro pd now w t fv dt hpd hth
    by_cases hlt : (if dt = 0 then now else dt) < now - w
    · simp [AdvancedMatcher.validateTemporalRule, hpd, hth, GoVal.isNull, hlt]
    · simp [AdvancedMatcher.validateTemporalRule, hpd, hth, GoVal.isNull, hlt]

/-- Claim C4 counterexample: with the system clock at 1000 ns and a
window of one second, a bundle timestamp of 5000000000 ns lies after
window_end = now, yet the temporal rule passes — the code never checks
the upper bound (and its now is the system clock, not the bundle's
wall time, which here differs from it). -/
theorem temporal_window_cex :
    AdvancedMatcher.validateTemporalRule parseDur1s 1000
      { windowSize := "1s" } .null 5000000000 = .ok () ∧
    (1000 : Int) - 1000000000 ≤ 5000000000 ∧ (1000 : Int) < 5000000000 := by
  refine ⟨by rfl, by decide, by decide⟩

/-- Claim C4 witness: the window characterization applied to a
timestamp inside the window. -/
theorem temporal_window_witness :
    parseDur1s ({ windowSize := "1s" } : TemporalRule).windowSize = some 1000000000 ∧
    ({ windowSize := "1s" } : TemporalRule).threshold = .null ∧
    (AdvancedMatcher.validateTemporalRule parseDur1s 1000
        { windowSize := "1s" } .null 500 = .ok () ↔
      ¬ ((if (500 : Int) = 0 then (1000 : Int) else 500) < 1000 - 1000000000)) :=
  ⟨by rfl, by rfl,
   temporal_window.2 parseDur1s 1000 1000000000 { windowSize := "1s" } .null 500
     (by rfl) (by rfl)⟩

/-- Claim C5 (corrected).  When a pattern does not compile, a matches
rule fails — but with the generic mismatch message (the code has no
pattern_invalid error kind), and a not_matches rule PASSES, because the
uncompilable pattern makes matchesPattern return false, which
not_matches treats as success.  When the pattern compiles, the actual
value is stringified via its canonical %v form before matching. -/
theorem pattern_invalid_behavior :
    (∀ (E : RegexEngine) (rule : ValidationRule) (fv : GoVal),
      rule.operator = "matches" → rule.pattern ≠ "" →
      E.compileOk rule.pattern = false →
      AdvancedMatcher.validateBasicRule E rule fv =
        .error ("field " ++ rule.field ++ ": value " ++ fv.asString ++
          " does not match pattern " ++ rule.pattern)) ∧
    (∀ (E : RegexEngine) (rule : ValidationRule) (fv : GoVal),
      rule.operator = "not_matches" → rule.pattern ≠ "" →
      E.compileOk rule.pattern = false →
      AdvancedMatcher.validateBasicRule E rule fv = .ok ()) ∧
    (∀ (E : RegexEngine) (v : GoVal) (pattern : String),
      v.isNull = false → pattern ≠ "" → E.compileOk pattern = true →
      AdvancedMatcher.matchesPattern E v pattern = E.matchString pattern v.asString) := by
  refine ⟨?_, ?_, ?_⟩
  · intro E rule fv hop hpat hco
    have hmp : AdvancedMatcher.matchesPattern E fv rule.pattern = false := by
      unfold AdvancedMatcher.matchesPattern
      split
      · rfl
      · simp [hco]
    simp [AdvancedMatcher.validateBasicRule, hop, hpat, hmp]
  · intro E rule fv hop hpat hco
    have hmp : AdvancedMatcher.matchesPattern E fv rule.pattern = false := by
      unfold AdvancedMatcher.matchesPattern
      split
      · rfl
      · simp [hco]
    simp [AdvancedMatcher.validateBasicRule, hop, hpat, hmp]
  · intro E v pattern hnull hpat hco
    simp [AdvancedMatcher.matchesPattern, hnull, hpat, hco]

/-- Claim C5 counterexample: against an engine in which the pattern "("
does not compile (in Go an unclosed group is a regexp parse error), a
not_matches rule with that pattern PASSES on the value "x", while the
claim requires it to fail with pattern_invalid. -/
theorem pattern_invalid_behavior_cex :
    engineParen.compileOk "(" = false ∧
    AdvancedMatcher.validateBasicRule engineParen
      { field := "f", operator := "not_matches", pattern := "(" } (.str "x") =
      .ok () := by
  refine ⟨by decide, by rfl⟩

/-- Claim C5 witness: the matches conjunct applied to the same
uncompilable pattern, and the stringification conjunct applied to an
int value (whose %v form "42" is matched). -/
theorem pattern_invalid_behavior_witness :
    AdvancedMatcher.validateBasicRule engineParen
      { field := "f", operator := "matches", pattern := "(" } (.str "x") =
      .error ("field " ++ "f" ++ ": value " ++ (GoVal.str "x").asString ++
        " does not match pattern " ++ "(") ∧
    AdvancedMatcher.matchesPattern engineParen (.int 42) "x" =
      engineParen.matchString "x" (GoVal.int 42).asString :=
  ⟨pattern_invalid_behavior.1 engineParen
    { field := "f", operator := "matches", pattern := "(" } (.str "x")
    (by rfl) (by decide) (by rfl),
   pattern_invalid_behavior.2.2 engineParen (.int 42) "x" (by rfl) (by decide) (by rfl)⟩

/-- Claim C3 (corrected).  Both extractors read only index 0 of the
first resource/scope/item sequence of the addressed signal (truncating
everything beyond the first item changes nothing), and unresolved paths
yield nil in the AdvancedMatcher extractor: unknown head segment,
empty bundle, unknown sub-field, absent span attribute and absent
service.name all give nil.  The exception, refuting the universal
claim: Matcher.extractSpanField yields the empty string, not nil, for
span.service / span.service.name when the resource has no service.name
attribute. -/
theorem extractor_first_and_null :
    (∀ (parts : List String) (ra : Attrs) (ss : List ScopeSpans) (sp : Span)
       (sps : List Span) (rs : List ResourceSpans),
      AdvancedMatcher.extractSpanField parts
          ({ resourceAttrs := ra, scopeSpans := { spans := sp :: sps } :: ss } :: rs) =
        AdvancedMatcher.extractSpanField parts
          [{ resourceAttrs := ra, scopeSpans := [{ spans := [sp] }] }]) ∧
    (∀ (parts : List String) (ra : Attrs) (sm : List ScopeMetrics) (m : Metric)
       (ms : List Metric) (rm : List ResourceMetrics),
      AdvancedMatcher.extractMetricField parts
          ({ resourceAttrs := ra, scopeMetrics := { metrics := m :: ms } :: sm } :: rm) =
        AdvancedMatcher.extractMetricField parts
          [{ resourceAttrs := ra, scopeMetrics := [{ metrics := [m] }] }]) ∧
    (∀ (parts : List String) (ra : Attrs) (sl : List ScopeLogs) (lr : LogRecord)
       (lrs : List LogRecord) (rl : List ResourceLogs),
      AdvancedMatcher.extractLogField parts
          ({ resourceAttrs := ra, scopeLogs := { logRecords := lr :: lrs } :: sl } :: rl) =
        AdvancedMatcher.extractLogField parts
          [{ resourceAttrs := ra, scopeLogs := [{ logRecords := [lr] }] }]) ∧
    (∀ (parts : List String) (ra : Attrs) (ss : List ScopeSpans) (sp : Span)
       (sps : List Span) (rs : List ResourceSpans),
      Matcher.extractSpanField parts
          ({ resourceAttrs := ra, scopeSpans := { spans := sp :: sps } :: ss } :: rs) =
        Matcher.extractSpanField parts
          [{ resourceAttrs := ra, scopeSpans := [{ spans := [sp] }] }]) ∧
    (∀ (fieldPath : String) (data : OTelData) (p : String) (rest : List String),
      goSplitDot fieldPath = p :: rest →
      p ≠ "span" → p ≠ "metric" → p ≠ "log" →
      AdvancedMatcher.extractFieldValue fieldPath data = .null) ∧
    (∀ parts, AdvancedMatcher.extractSpanField parts [] = .null) ∧
    (∀ parts, AdvancedMatcher.extractMetricField parts [] = .null) ∧
    (∀ parts, AdvancedMatcher.extractLogField parts [] = .null) ∧
    (∀ (p : String) (rest : List String) (traces : Traces),
      p ≠ "name" → p ≠ "service" → p ≠ "service.name" → p ≠ "duration" →
      p ≠ "status" → p ≠ "attributes" →
      AdvancedMatcher.extractSpanField (p :: rest) traces = .null) ∧
    (∀ (k : String) (rest : List String) (ra : Attrs) (sl : List ScopeSpans)
       (sp : Span) (spl : List Span) (rs : List ResourceSpans),
      attrGet sp.attrs k = none →
      AdvancedMatcher.extractSpanField ("attributes" :: k :: rest)
          ({ resourceAttrs := ra, scopeSpans := { spans := sp :: spl } :: sl } :: rs) =
        .null) ∧
    (∀ (rest : List String) (ra : Attrs) (sl : List ScopeSpans)
       (sp : Span) (spl : List Span) (rs : List ResourceSpans),
      attrGet ra "service.name" = none →
      AdvancedMatcher.extractSpanField ("service" :: rest)
          ({ resourceAttrs := ra, scopeSpans := { spans := sp :: spl } :: sl } :: rs) =
        .null) := by
  refine ⟨?_, ?_, ?_, ?_, ?_, ?_, ?_, ?_, ?_, ?_, ?_⟩
  · intro parts ra ss sp sps rs
    rfl
  · intro parts ra sm m ms rm
    rfl
  · intro parts ra sl lr lrs rl
    rfl
  · intro parts ra ss sp sps rs
    rfl
  · intro fieldPath data p rest h hp1 hp2 hp3
    unfold AdvancedMatcher.extractFieldValue
    rw [h]
    simp [hp1, hp2, hp3]
  · intro parts
    rfl
  · intro parts
    rfl
  · intro parts
    rfl
  · intro p rest traces h1 h2 h3 h4 h5 h6
    cases traces with
    | nil => rfl
    | cons rs rs2 =>
      obtain ⟨ra, ssList⟩ := rs
      cases ssList with
      | nil => rfl
      | cons ss ssl =>
        obtain ⟨spans⟩ := ss
        cases spans with
        | nil => rfl
        | cons span spl =>
          simp [AdvancedMatcher.extractSpanField, h1, h2, h3, h4, h5, h6]
  · intro k rest ra sl sp spl rs h
    simp [AdvancedMatcher.extractSpanField, h]
  · intro rest ra sl sp spl rs h
    simp [AdvancedMatcher.extractSpanField, h]

/-- Claim C3 counterexample: on a bundle whose resource attributes lack
service.name, Matcher.extractFieldValue resolves span.service (and
span.service.name) to the EMPTY STRING, not to nil as the claim states
for all unresolved paths; the AdvancedMatcher extractor does give nil
there. -/
theorem extractor_first_and_null_cex :
    Matcher.extractFieldValue "span.service" sampleData = .str "" ∧
    Matcher.extractFieldValue "span.service.name" sampleData = .str "" ∧
    GoVal.str "" ≠ .null ∧
    AdvancedMatcher.extractFieldValue "span.service" sampleData = .null := by
  refine ⟨by rfl, by rfl, by decide, by rfl⟩

/-- Claim C3 witness: the quantified conjuncts applied to concrete
inputs — the unknown head "resource", the unknown sub-field "kind",
and the absent attribute "zzz" on sampleSpan's bundle. -/
theorem extractor_first_and_null_witness :
    goSplitDot "resource.foo" = "resource" :: ["foo"] ∧
    AdvancedMatcher.extractFieldValue "resource.foo" sampleData = .null ∧
    AdvancedMatcher.extractSpanField ("kind" :: []) sampleTraces = .null ∧
    attrGet sampleSpan.attrs "zzz" = none ∧
    AdvancedMatcher.extractSpanField ("attributes" :: "zzz" :: [])
        ({ resourceAttrs := [], scopeSpans := { spans := sampleSpan :: [] } :: [] } :: []) =
      .null ∧
    AdvancedMatcher.extractSpanField ("name" :: [])
        ({ resourceAttrs := [], scopeSpans := { spans := sampleSpan :: [] } :: [] } :: []) =
      AdvancedMatcher.extractSpanField ("name" :: [])
        [{ resourceAttrs := [], scopeSpans := [{ spans := [sampleSpan] }] }] :=
  ⟨by decide,
   extractor_first_and_null.2.2.2.2.1 "resource.foo" sampleData "resource" ["foo"]
     (by decide) (by decide) (by decide) (by decide),
   extractor_first_and_null.2.2.2.2.2.2.2.2.1 "kind" [] sampleTraces
     (by decide) (by decide) (by decide) (by decide) (by decide) (by decide),
   by decide,
   extractor_first_and_null.2.2.2.2.2.2.2.2.2.1 "zzz" [] [] [] sampleSpan [] []
     (by decide),
   extractor_first_and_null.1 ("name" :: []) [] [] sampleSpan [] []⟩

/-- Helper: under the first-item shape, validateTrace cannot abort. -/
theorem validateTrace_isSome (m : TraceMatcher) (t : Traces)
    (h : tracesFirstItemOk t = true) (hne : t ≠ []) :
    (Matcher.validateTrace m t).isSome = true := by
  cases t with
  | nil => exact absurd rfl hne
  | cons rs rs2 =>
    obtain ⟨ra, ssl⟩ := rs
    cases ssl with
    | nil => simp [tracesFirstItemOk] at h
    | cons ss sl =>
      obtain ⟨sps⟩ := ss
      cases sps with
      | nil => simp [tracesFirstItemOk] at h
      | cons sp spl => simp [Matcher.validateTrace]

/-- Helper: under the first-item shape, the trace matcher loop cannot
abort. -/
theorem validateTracesLoop_isSome (t : Traces)
    (h : tracesFirstItemOk t = true) (hne : t ≠ []) :
    ∀ (i : Nat) (ms : List TraceMatcher),
      (Matcher.validateTracesLoop t i ms).isSome = true := by
  intro i ms
  induction ms generalizing i with
  | nil => rfl
  | cons m ms ih =>
    have hs := validateTrace_isSome m t h hne
    unfold Matcher.validateTracesLoop
    cases hvt : Matcher.validateTrace m t with
    | none => rw [hvt] at hs; simp at hs
    | some r =>
      cases r with
      | error e => simp
      | ok u => cases u; simpa using ih (i + 1)

/-- Helper: under the first-item shape, validateTraces cannot abort. -/
theorem validateTraces_isSome (ms : List TraceMatcher) (t : Traces)
    (h : tracesFirstItemOk t = true) :
    (Matcher.validateTraces ms t).isSome = true := by
  unfold Matcher.validateTraces
  by_cases he : t.isEmpty
  · simp [he]
  · have hne : t ≠ [] := by
      cases t with
      | nil => simp at he
      | cons a b => intro hx; cases hx
    simp only [he, if_false, Bool.false_eq_true]
    exact validateTracesLoop_isSome t h hne 0 ms

/-- Helper: under the first-item shape, validateMetric cannot abort. -/
theorem validateMetric_isSome (m : MetricMatcher) (t : Metrics)
    (h : metricsFirstItemOk t = true) (hne : t ≠ []) :
    (Matcher.validateMetric m t).isSome = true := by
  cases t with
  | nil => exact absurd rfl hne
  | cons rm rm2 =>
    obtain ⟨ra, sml⟩ := rm
    cases sml with
    | nil => simp [metricsFirstItemOk] at h
    | cons sm sl =>
      obtain ⟨mets⟩ := sm
      cases mets with
      | nil => simp [metricsFirstItemOk] at h
      | cons met metl => simp [Matcher.validateMetric]

/-- Helper: under the first-item shape, the metric matcher loop cannot
abort. -/
theorem validateMetricsLoop_isSome (t : Metrics)
    (h : metricsFirstItemOk t = true) (hne : t ≠ []) :
    ∀ (i : Nat) (ms : List MetricMatcher),
      (Matcher.validateMetricsLoop t i ms).isSome = true := by
  intro i ms
  induction ms generalizing i with
  | nil => rfl
  | cons m ms ih =>
    have hs := validateMetric_isSome m t h hne
    unfold Matcher.validateMetricsLoop
    cases hvt : Matcher.validateMetric m t with
    | none => rw [hvt] at hs; simp at hs
    | some r =>
      cases r with
      | error e => simp
      | ok u => cases u; simpa using ih (i + 1)

/-- Helper: under the first-item shape, validateMetrics cannot abort. -/
theorem validateMetrics_isSome (ms : List MetricMatcher) (t : Metrics)
    (h : metricsFirstItemOk t = true) :
    (Matcher.validateMetrics ms t).isSome = true := by
  unfold Matcher.validateMetrics
  by_cases he : t.isEmpty
  · simp [he]
  · have hne : t ≠ [] := by
      cases t with
      | nil => simp at he
      | cons a b => intro hx; cases hx
    simp only [he, if_false, Bool.false_eq_true]
    exact validateMetricsLoop_isSome t h hne 0 ms

/-- Helper: under the first-item shape, validateLog cannot abort. -/
theorem validateLog_isSome (m : LogMatcher) (t : Logs)
    (h : logsFirstItemOk t = true) (hne : t ≠ []) :
    (Matcher.validateLog m t).isSome = true := by
  cases t with
  | nil => exact absurd rfl hne
  | cons rl rl2 =>
    obtain ⟨ra, sll⟩ := rl
    cases sll with
    | nil => simp [logsFirstItemOk] at h
    | cons sl sls =>
      obtain ⟨recs⟩ := sl
      cases recs with
      | nil => simp [logsFirstItemOk] at h
      | cons rec recl => simp [Matcher.validateLog]

/-- Helper: under the first-item shape, the log matcher loop cannot
abort. -/
theorem validateLogsLoop_isSome (t : Logs)
    (h : logsFirstItemOk t = true) (hne : t ≠ []) :
    ∀ (i : Nat) (ms : List LogMatcher),
      (Matcher.validateLogsLoop t i ms).isSome = true := by
  intro i ms
  induction ms generalizing i with
  | nil => rfl
  | cons m ms ih =>
    have hs := validateLog_isSome m t h hne
    unfold Matcher.validateLogsLoop
    cases hvt : Matcher.validateLog m t with
    | none => rw [hvt] at hs; simp at hs
    | some r =>
      cases r with
      | error e => simp
      | ok u => cases u; simpa using ih (i + 1)

/-- Helper: under the first-item shape, validateLogs cannot abort. -/
theorem validateLogs_isSome (ms : List LogMatcher) (t : Logs)
    (h : logsFirstItemOk t = true) :
    (Matcher.validateLogs ms t).isSome = true := by
  unfold Matcher.validateLogs
  by_cases he : t.isEmpty
  · simp [he]
  · have hne : t ≠ [] := by
      cases t with
      | nil => simp at he
      | cons a b => intro hx; cases hx
    simp only [he, if_false, Bool.false_eq_true]
    exact validateLogsLoop_isSome t h hne 0 ms

/-- Helper: stepResult on a non-aborted step returns a result. -/
theorem stepResult_some (r : ValidationResult) (x : Except String Unit) (ty sig : String) :
    ∃ r2, Matcher.stepResult r (some x) ty sig = some r2 := by
  cases x with
  | ok u => cases u; exact ⟨r, rfl⟩
  | error e =>
    exact ⟨ValidationResult.mk false
      (r.errors ++ [ValidationError.mk ty e sig]) r.warnings, rfl⟩

/-- Helper: under the three first-item shapes, the matcher phase
returns a result. -/
theorem runMatchers_total (m : Matchers) (output : OTelData)
    (h1 : tracesFirstItemOk output.traces = true)
    (h2 : metricsFirstItemOk output.metrics = true)
    (h3 : logsFirstItemOk output.logs = true) :
    (Matcher.runMatchers m output).isSome = true := by
  unfold Matcher.runMatchers
  have s1 : (if m.traces.isEmpty then some (Except.ok ())
      else Matcher.validateTraces m.traces output.traces).isSome = true := by
    by_cases he : m.traces.isEmpty
    · simp [he]
    · simpa [he] using validateTraces_isSome m.traces output.traces h1
  obtain ⟨t1, ht1⟩ := Option.isSome_iff_exists.mp s1
  obtain ⟨r1, hr1⟩ := stepResult_some { valid := true, errors := [], warnings := [] } t1
    "trace_validation" "traces"
  rw [ht1, hr1]
  have s2 : (if m.metrics.isEmpty then some (Except.ok ())
      else Matcher.validateMetrics m.metrics output.metrics).isSome = true := by
    by_cases he : m.metrics.isEmpty
    · simp [he]
    · simpa [he] using validateMetrics_isSome m.metrics output.metrics h2
  obtain ⟨t2, ht2⟩ := Option.isSome_iff_exists.mp s2
  obtain ⟨r2, hr2⟩ := stepResult_some r1 t2 "metric_validation" "metrics"
  rw [Option.some_bind, ht2, hr2]
  have s3 : (if m.logs.isEmpty then some (Except.ok ())
      else Matcher.validateLogs m.logs output.logs).isSome = true := by
    by_cases he : m.logs.isEmpty
    · simp [he]
    · simpa [he] using validateLogs_isSome m.logs output.logs h3
  obtain ⟨t3, ht3⟩ := Option.isSome_iff_exists.mp s3
  obtain ⟨r3, hr3⟩ := stepResult_some r2 t3 "log_validation" "logs"
  rw [Option.some_bind, ht3, hr3]
  rfl

/-- Claim C10 (confirmed).  Matcher.Validate guards only the
zero-resource case per signal (producing the validation error "no
traces found in output" for traces); past that guard, validateTrace,
validateMetric and validateLog index the first scope and first item
without bounds checks, so an empty first scope list or item list aborts
(none) instead of producing a validation error; when the first resource
entry of each matched signal carries a first scope with a first item,
Validate returns a result. -/
theorem validate_first_item_precondition :
    (∀ (m : TraceMatcher) (ra : Attrs) (rs : List ResourceSpans),
      Matcher.validateTrace m ({ resourceAttrs := ra, scopeSpans := [] } :: rs) = none) ∧
    (∀ (m : TraceMatcher) (ra : Attrs) (sl : List ScopeSpans) (rs : List ResourceSpans),
      Matcher.validateTrace m
        ({ resourceAttrs := ra, scopeSpans := { spans := [] } :: sl } :: rs) = none) ∧
    (∀ (m : MetricMatcher) (ra : Attrs) (rm : List ResourceMetrics),
      Matcher.validateMetric m ({ resourceAttrs := ra, scopeMetrics := [] } :: rm) = none) ∧
    (∀ (m : MetricMatcher) (ra : Attrs) (sl : List ScopeMetrics) (rm : List ResourceMetrics),
      Matcher.validateMetric m
        ({ resourceAttrs := ra, scopeMetrics := { metrics := [] } :: sl } :: rm) = none) ∧
    (∀ (m : LogMatcher) (ra : Attrs) (rl : List ResourceLogs),
      Matcher.validateLog m ({ resourceAttrs := ra, scopeLogs := [] } :: rl) = none) ∧
    (∀ (m : LogMatcher) (ra : Attrs) (sl : List ScopeLogs) (rl : List ResourceLogs),
      Matcher.validateLog m
        ({ resourceAttrs := ra, scopeLogs := { logRecords := [] } :: sl } :: rl) = none) ∧
    (∀ ms : List TraceMatcher,
      Matcher.validateTraces ms [] = some (.error "no traces found in output")) ∧
    (∀ (E : RegexEngine) (c : Contract) (input output : OTelData),
      tracesFirstItemOk output.traces = true →
      metricsFirstItemOk output.metrics = true →
      logsFirstItemOk output.logs = true →
      (Matcher.validate E c input output).isSome = true) ∧
    Matcher.validate engineAllTrue cWarn emptyData noScopeData = none := by
  refine ⟨?_, ?_, ?_, ?_, ?_, ?_, ?_, ?_, ?_⟩
  · intro m ra rs; rfl
  · intro m ra sl rs; rfl
  · intro m ra rm; rfl
  · intro m ra sl rm; rfl
  · intro m ra rl; rfl
  · intro m ra sl rl; rfl
  · intro ms; rfl
  · intro E c input output h1 h2 h3
    unfold Matcher.validate
    by_cases hf : Matcher.applyFilters E c.filters input = true
    · simp only [hf, not_true_eq_false, if_false, Bool.false_eq_true]
      exact runMatchers_total c.matchers output h1 h2 h3
    · simp [hf]
  · rfl

/-- Claim C10 witness: the totality conjunct applied to cWarn against
the well-shaped sampleData bundle. -/
theorem validate_first_item_precondition_witness :
    tracesFirstItemOk sampleData.traces = true ∧
    metricsFirstItemOk sampleData.metrics = true ∧
    logsFirstItemOk sampleData.logs = true ∧
    (Matcher.validate engineAllTrue cWarn emptyData sampleData).isSome = true :=
  ⟨by decide, by decide, by decide,
   validate_first_item_precondition.2.2.2.2.2.2.2.1 engineAllTrue cWarn emptyData sampleData
     (by decide) (by decide) (by decide)⟩

end Waveform
